import Mathlib

/-!
Verification of the watch-scheduler and point-accounting core of
`twitch-channel-point-collector` (`src/collect.py`), shallowly embedded in Lean.

Conventions of the embedding:
* timestamps and elapsed times are whole seconds (`ℤ`);
* Python floats are modelled as exact rationals (`ℚ`), Python `int(x)` as
  truncation toward zero (`Int.tdiv`);
* the per-channel dictionaries of `collect.py` become the `CollectChannel`
  structure; Python's value-equality membership tests (`c in liveChannels`)
  become decidable membership on that structure.
-/

/-- `POINTS_FOR_WATCHTIME` constant (collect.py line 92). -/
def POINTS_FOR_WATCHTIME : ℤ := 10

/-- `POINTS_FOR_BONUS` constant (collect.py line 93). -/
def POINTS_FOR_BONUS : ℤ := 50

/-- Python `int(q)` applied to a (rational-valued) float: truncation toward zero. -/
def pyInt (q : ℚ) : ℤ := Int.tdiv q.num (q.den : ℤ)

/-- `(datetime.now() - watching_since).seconds` (collect.py line 55): Python
normalizes a `timedelta` so that its `seconds` component lies in `[0, 86400)`;
given the true elapsed whole seconds it equals the elapsed seconds modulo one
day (always non-negative, even for a `watching_since` in the future). -/
def timedeltaSeconds (elapsedSeconds : ℤ) : ℤ := elapsedSeconds % 86400

/-- `watchtime_in_minutes = int((datetime.now() - watching_since).seconds / 60)`
(collect.py line 55). -/
def watchtimeInMinutes (elapsedSeconds : ℤ) : ℤ :=
  Int.tdiv (timedeltaSeconds elapsedSeconds) 60

/-- The body of `calc_earned_channel_points` from the computed watchtime minutes
on (collect.py lines 57-65): `int((watchtime_in_minutes - buffer) / 5) *
POINTS_FOR_WATCHTIME`, plus `claimed_bonuses * POINTS_FOR_BONUS`, multiplied by
`multiplier` and truncated by the final `int(...)`. -/
def calcFromMinutes (watchtime_in_minutes : ℤ) (claimed_bonuses : ℤ)
    (multiplier : ℚ) (buffer : ℤ) : ℤ :=
  let earned_points := Int.tdiv (watchtime_in_minutes - buffer) 5 * POINTS_FOR_WATCHTIME
  let earned_points := earned_points + claimed_bonuses * POINTS_FOR_BONUS
  pyInt ((earned_points : ℚ) * multiplier)

/-- `calc_earned_channel_points(watching_since, claimed_bonuses, multiplier,
buffer)` (collect.py lines 51-65), as a function of the true elapsed whole
seconds `now - watching_since`. -/
def calc_earned_channel_points (elapsedSeconds : ℤ) (claimed_bonuses : ℤ)
    (multiplier : ℚ) (buffer : ℤ) : ℤ :=
  calcFromMinutes (watchtimeInMinutes elapsedSeconds) claimed_bonuses multiplier buffer

/-! ### Helper lemmas about the estimator -/

theorem pyInt_eq_floor (q : ℚ) (hq : 0 ≤ q) : pyInt q = ⌊q⌋ := by
  unfold pyInt
  rw [Rat.floor_def]
  exact Int.tdiv_eq_ediv (Rat.num_nonneg.mpr hq) (Int.natCast_nonneg _)

theorem pyInt_le_pyInt (x y : ℚ) (hx : 0 ≤ x) (hxy : x ≤ y) : pyInt x ≤ pyInt y := by
  rw [pyInt_eq_floor x hx, pyInt_eq_floor y (hx.trans hxy)]
  exact Int.floor_mono hxy

theorem tdiv_five_mono (w w' : ℤ) (h0 : 0 ≤ w) (h : w ≤ w') :
    Int.tdiv w 5 ≤ Int.tdiv w' 5 := by
  rw [Int.tdiv_eq_ediv h0 (by decide), Int.tdiv_eq_ediv (h0.trans h) (by decide)]
  exact Int.ediv_le_ediv (by decide) h

theorem tdiv_five_nonneg (w : ℤ) (h0 : 0 ≤ w) : 0 ≤ Int.tdiv w 5 :=
  Int.tdiv_nonneg h0 (by decide)

theorem pyInt_intCast (n : ℤ) : pyInt ((n : ℤ) : ℚ) = n := by
  unfold pyInt
  simp

theorem pyInt_intCast_mul_one (n : ℤ) : pyInt (((n : ℤ) : ℚ) * 1) = n := by
  rw [mul_one]
  exact pyInt_intCast n

theorem pyInt_ten_mul_three_half : pyInt (((10 : ℤ) : ℚ) * (3 / 2)) = 15 := by
  rw [pyInt_eq_floor _ (by norm_num)]
  norm_num

/-- C2 (evaluation at the failing input): the claim says the elapsed-minutes
value equals `floor(secondsSince(watchingSince)/60)` of the true elapsed time,
so a timestamp 25 hours in the past yields 1500 minutes, and a future timestamp
can make the total negative.  The code instead reads `timedelta.seconds`, the
day-wrapped component: 25 hours (90000 s) yield 60 elapsed minutes and 120
points, and a timestamp 10 minutes in the future (-600 s) yields 1430 elapsed
minutes — the elapsed-minutes value is never negative. -/
theorem C2_timedelta_wrap :
    watchtimeInMinutes 90000 = 60 ∧
    calc_earned_channel_points 90000 0 1 0 = 120 ∧
    watchtimeInMinutes (-600) = 1430 ∧
    calc_earned_channel_points (-600) 0 1 0 = 2860 := by
  exact ⟨by decide, pyInt_intCast_mul_one 120, by decide, pyInt_intCast_mul_one 2860⟩

/-- C7 counterexample: at `m = 1440` (watchingSince exactly one whole day in the
past) the claimed formula gives `floor(1440/5) * 10 = 2880` points, but the code
returns 0 because `timedelta.seconds` wraps at one day. -/
theorem C7_day_wrap_counterexample :
    calc_earned_channel_points (1440 * 60) 0 1 0 = 0 ∧
    pyInt (((Int.tdiv 1440 5 * 10 + 0 * 50 : ℤ) : ℚ) * 1) = 2880 :=
  ⟨pyInt_intCast_mul_one 0, pyInt_intCast_mul_one 2880⟩

/-- C7 (amended): for a `watchingSince` exactly `m` whole minutes in the past
with `m < 1440` (below the one-day wrap of `timedelta.seconds`) and buffer 0,
`calc_earned_channel_points` returns
`int((floor(m/5) * 10 + claimedBonuses * 50) * multiplier)`. -/
theorem C7_points_formula (m : ℤ) (hm0 : 0 ≤ m) (hm : m < 1440) (b : ℤ) (q : ℚ) :
    calc_earned_channel_points (m * 60) b q 0 =
      pyInt (((m / 5 * 10 + b * 50 : ℤ) : ℚ) * q) := by
  have hsec : timedeltaSeconds (m * 60) = m * 60 := by
    unfold timedeltaSeconds
    exact Int.emod_eq_of_lt (by linarith) (by linarith)
  have hmin : watchtimeInMinutes (m * 60) = m := by
    unfold watchtimeInMinutes
    rw [hsec, Int.tdiv_eq_ediv (by linarith) (by decide),
      Int.mul_ediv_cancel _ (by norm_num)]
  simp only [calc_earned_channel_points, calcFromMinutes, hmin, sub_zero,
    Int.tdiv_eq_ediv hm0 (by decide : (0 : ℤ) ≤ 5)]
  rfl

/-- C7 witness: the spec's sample values, obtained from `C7_points_formula`. -/
theorem C7_points_formula_witness :
    calc_earned_channel_points (9 * 60) 0 1 0 = 10 ∧
    calc_earned_channel_points (10 * 60) 0 1 0 = 20 ∧
    calc_earned_channel_points (0 * 60) 2 1 0 = 100 ∧
    calc_earned_channel_points (5 * 60) 0 (3 / 2) 0 = 15 := by
  exact ⟨(C7_points_formula 9 (by decide) (by decide) 0 1).trans (pyInt_intCast_mul_one 10),
    (C7_points_formula 10 (by decide) (by decide) 0 1).trans (pyInt_intCast_mul_one 20),
    (C7_points_formula 0 (by decide) (by decide) 2 1).trans (pyInt_intCast_mul_one 100),
    (C7_points_formula 5 (by decide) (by decide) 0 (3 / 2)).trans pyInt_ten_mul_three_half⟩

/-- C8: holding buffer at its default 0, for non-negative elapsed minutes,
claimed bonuses and multiplier, the estimator is monotonically non-decreasing
in each of the three inputs independently while the other two are fixed. -/
theorem C8_estimator_monotone (w w' b b' : ℤ) (q q' : ℚ)
    (hw0 : 0 ≤ w) (hww : w ≤ w') (hb0 : 0 ≤ b) (hbb : b ≤ b')
    (hq0 : 0 ≤ q) (hqq : q ≤ q') :
    calcFromMinutes w b q 0 ≤ calcFromMinutes w' b q 0 ∧
    calcFromMinutes w b q 0 ≤ calcFromMinutes w b' q 0 ∧
    calcFromMinutes w b q 0 ≤ calcFromMinutes w b q' 0 := by
  have hu0 : 0 ≤ Int.tdiv (w - 0) 5 := tdiv_five_nonneg _ (by linarith)
  have hbase0 : (0 : ℤ) ≤ Int.tdiv (w - 0) 5 * POINTS_FOR_WATCHTIME + b * POINTS_FOR_BONUS := by
    have : (0 : ℤ) ≤ b * POINTS_FOR_BONUS := by
      unfold POINTS_FOR_BONUS
      positivity
    unfold POINTS_FOR_WATCHTIME
    nlinarith
  refine ⟨?_, ?_, ?_⟩
  · have hunits : Int.tdiv (w - 0) 5 ≤ Int.tdiv (w' - 0) 5 := by
      simpa using tdiv_five_mono w w' hw0 hww
    unfold calcFromMinutes
    refine pyInt_le_pyInt _ _ (mul_nonneg (by exact_mod_cast hbase0) hq0) ?_
    have hZ : (Int.tdiv (w - 0) 5 * POINTS_FOR_WATCHTIME + b * POINTS_FOR_BONUS : ℤ) ≤
        Int.tdiv (w' - 0) 5 * POINTS_FOR_WATCHTIME + b * POINTS_FOR_BONUS := by
      unfold POINTS_FOR_WATCHTIME
      nlinarith
    exact mul_le_mul_of_nonneg_right (by exact_mod_cast hZ) hq0
  · unfold calcFromMinutes
    refine pyInt_le_pyInt _ _ (mul_nonneg (by exact_mod_cast hbase0) hq0) ?_
    have hZ : (Int.tdiv (w - 0) 5 * POINTS_FOR_WATCHTIME + b * POINTS_FOR_BONUS : ℤ) ≤
        Int.tdiv (w - 0) 5 * POINTS_FOR_WATCHTIME + b' * POINTS_FOR_BONUS := by
      unfold POINTS_FOR_BONUS
      nlinarith
    exact mul_le_mul_of_nonneg_right (by exact_mod_cast hZ) hq0
  · unfold calcFromMinutes
    refine pyInt_le_pyInt _ _ (mul_nonneg (by exact_mod_cast hbase0) hq0) ?_
    exact mul_le_mul_of_nonneg_left hqq (by exact_mod_cast hbase0)

/-- C8 witness at a concrete input. -/
theorem C8_estimator_monotone_witness :
    calcFromMinutes 5 0 1 0 ≤ calcFromMinutes 12 0 1 0 ∧
    calcFromMinutes 5 0 1 0 ≤ calcFromMinutes 5 3 1 0 ∧
    calcFromMinutes 5 0 1 0 ≤ calcFromMinutes 5 0 (3 / 2) 0 :=
  C8_estimator_monotone 5 12 0 3 1 (3 / 2)
    (by decide) (by decide) (by decide) (by decide) (by norm_num) (by norm_num)

/-! ### Per-channel state (the dictionaries built in collect.py lines 104-115) -/

structure CollectChannel where
  channelName : String
  negativeLiveCheckCount : ℕ
  windowHandle : Option ℕ
  earnedPoints : ℤ
  pointMultiplier : ℚ
  startedWatchingLiveAt : Option ℤ
  claimedBonuses : ℕ
  deriving DecidableEq

/-- The fresh channel record appended for each deduplicated configured name
(collect.py lines 107-115); the name is `.strip()`ped on insertion. -/
def initChannel (name : String) : CollectChannel :=
  { channelName := name.trim
    negativeLiveCheckCount := 0
    windowHandle := none
    earnedPoints := 0
    pointMultiplier := 0
    startedWatchingLiveAt := none
    claimedBonuses := 0 }

/-- `collectChannels` as built from the deduplicated channel-name list
(collect.py lines 105-115). -/
def setupCollectChannels (dedupedNames : List String) : List CollectChannel :=
  dedupedNames.map initChannel

/-! ### The idle-channels phase of a tick -/

/-- The body of the idle-channels loop for one channel (collect.py lines
211-218): when a channel still has `startedWatchingLiveAt` set, snapshot the
current-session points into `earnedPoints` and clear the timestamp. -/
def idleUpdate (now : ℤ) (c : CollectChannel) : CollectChannel :=
  match c.startedWatchingLiveAt with
  | some t =>
      { c with
        earnedPoints := calc_earned_channel_points (now - t) (c.claimedBonuses : ℤ)
          c.pointMultiplier 0
        startedWatchingLiveAt := none }
  | none => c

/-- The idle-channels phase of a tick (collect.py lines 207-218):
`idleChannels = [c for c in collectChannels if c not in watchChannels]`, and the
loop mutates each of the shared records in place, which over the list of
records is a map applying `idleUpdate` exactly to the non-watched channels. -/
def processIdleChannels (now : ℤ) (watchChannels collectChannels : List CollectChannel) :
    List CollectChannel :=
  collectChannels.map (fun c => if c ∈ watchChannels then c else idleUpdate now c)

/-- C1: a channel that falls out of the watch set while `startedWatchingLiveAt`
is set gets its current-session points — the estimator applied to its
timestamp, claimed-bonus count and point multiplier — stored into
`earnedPoints`, and the timestamp cleared, by the idle-channels phase. -/
theorem C1_idle_accounting (now : ℤ) (watchChannels collectChannels : List CollectChannel)
    (c : CollectChannel) (t : ℤ)
    (hc : c ∈ collectChannels) (hw : c ∉ watchChannels)
    (ht : c.startedWatchingLiveAt = some t) :
    idleUpdate now c ∈ processIdleChannels now watchChannels collectChannels ∧
    (idleUpdate now c).earnedPoints =
      calc_earned_channel_points (now - t) (c.claimedBonuses : ℤ) c.pointMultiplier 0 ∧
    (idleUpdate now c).startedWatchingLiveAt = none := by
  refine ⟨List.mem_map.mpr ⟨c, hc, by simp [hw]⟩, ?_, ?_⟩
  · simp [idleUpdate, ht]
  · simp [idleUpdate, ht]

/-- The concrete displaced channel of C1's example: watching began at time 0,
displacement happens at `now = 720` (12 minutes later), no bonuses claimed,
multiplier 1. -/
def c1DisplacedChannel : CollectChannel :=
  { channelName := "b"
    negativeLiveCheckCount := 0
    windowHandle := some 0
    earnedPoints := 0
    pointMultiplier := 1
    startedWatchingLiveAt := some 0
    claimedBonuses := 0 }

/-- C1 witness: the 12-minute displacement example gives `earnedPoints = 20`
and an absent watching-since timestamp immediately after the idle phase. -/
theorem C1_idle_accounting_witness :
    idleUpdate 720 c1DisplacedChannel ∈ processIdleChannels 720 [] [c1DisplacedChannel] ∧
    (idleUpdate 720 c1DisplacedChannel).earnedPoints = 20 ∧
    (idleUpdate 720 c1DisplacedChannel).startedWatchingLiveAt = none := by
  obtain ⟨h1, h2, h3⟩ :=
    C1_idle_accounting 720 [] [c1DisplacedChannel] c1DisplacedChannel 0
      (by simp) (by simp) rfl
  exact ⟨h1, h2.trans (pyInt_intCast_mul_one 20), h3⟩

/-! ### Channel-list deduplication (collect.py line 106) -/

/-- C10: `sorted(set(args.channel_name), key=args.channel_name.index)` —
Python's `set` yields some duplicate-free enumeration `s` of the configured
names, and `sorted` returns a permutation `t` of `s` that is sorted by the key
`args.channel_name.index`, the index of each name's first occurrence.  For
every such `s` and `t`: the deduplicated list `t` has exactly one entry (and
hence `setupCollectChannels t` exactly one channel record) per distinct
configured name, and its order is the strict order of first occurrence in the
user-supplied list. -/
theorem C10_dedup_first_occurrence (configured s t : List String)
    (hs : s.Nodup)
    (hsc : ∀ x ∈ configured, x ∈ s) (hcs : ∀ x ∈ s, x ∈ configured)
    (hperm : t.Perm s)
    (hsorted : t.Sorted (fun a b => configured.indexOf a ≤ configured.indexOf b)) :
    t.Nodup ∧
    (∀ x ∈ configured, x ∈ t) ∧ (∀ x ∈ t, x ∈ configured) ∧
    t.Sorted (fun a b => configured.indexOf a < configured.indexOf b) ∧
    (setupCollectChannels t).length = t.length := by
  have ht : t.Nodup := hperm.symm.nodup hs
  have htmem : ∀ x, x ∈ t ↔ x ∈ s := fun x => hperm.mem_iff
  refine ⟨ht, fun x hx => (htmem x).mpr (hsc x hx), fun x hx => hcs x ((htmem x).mp hx),
    ?_, by simp [setupCollectChannels]⟩
  have hpair : t.Pairwise
      (fun a b => a ≠ b ∧ configured.indexOf a ≤ configured.indexOf b) :=
    List.Pairwise.and ht hsorted
  refine hpair.imp_of_mem ?_
  intro a b ha hb hab
  rcases hab with ⟨hne, hle⟩
  refine lt_of_le_of_ne hle ?_
  intro heq
  exact hne ((List.indexOf_inj (hcs a ((htmem a).mp ha)) (hcs b ((htmem b).mp hb))).mp heq)

/-- C10 witness: configured list `["b", "a", "b"]`, one set enumeration
`["a", "b"]`, sorted output `["b", "a"]`. -/
theorem C10_dedup_first_occurrence_witness :
    (["b", "a"] : List String).Nodup ∧
    (∀ x ∈ (["b", "a", "b"] : List String), x ∈ (["b", "a"] : List String)) ∧
    (∀ x ∈ (["b", "a"] : List String), x ∈ (["b", "a", "b"] : List String)) ∧
    (["b", "a"] : List String).Sorted
      (fun a b => (["b", "a", "b"] : List String).indexOf a <
        (["b", "a", "b"] : List String).indexOf b) ∧
    (setupCollectChannels ["b", "a"]).length = (["b", "a"] : List String).length :=
  C10_dedup_first_occurrence ["b", "a", "b"] ["a", "b"] ["b", "a"]
    (by decide) (by decide) (by decide) (by decide) (by decide)

/-! ### Watch-set selection, ranked non-asap mode (collect.py lines 176-195) -/

/-- Python list slicing `xs[:n]` with a possibly negative bound, as used in
`candidateChannels[:args.max_concurrent - len(watchChannels)]` (collect.py
line 195): a negative bound keeps all but the last `|n|` elements. -/
def pyTakeSlice {α : Type} (xs : List α) (n : ℤ) : List α :=
  if 0 ≤ n then xs.take n.toNat else xs.take (xs.length - n.natAbs)

/-- The watch-streak protection test of ranked non-asap mode (collect.py lines
186-188): keep a channel while
`calc_earned_channel_points(c['startedWatchingLiveAt'], buffer=1) <
POINTS_FOR_WATCHTIME` (with the default bonus count 0 and multiplier 1.0). -/
def watchStreakProtected (now : ℤ) (c : CollectChannel) : Bool :=
  match c.startedWatchingLiveAt with
  | some t => decide (calc_earned_channel_points (now - t) 0 1 1 < POINTS_FOR_WATCHTIME)
  | none => false

/-- `liveChannels = [c for c in collectChannels if check_if_channel_is_live(...)]`
(collect.py line 178); the live-status oracle outcome for this tick is the
parameter `isLive`. -/
def liveChannelsOf (isLive : CollectChannel → Bool)
    (collectChannels : List CollectChannel) : List CollectChannel :=
  collectChannels.filter isLive

/-- The sticky part of the ranked non-asap watch set (collect.py lines
186-188): live channels that already hold a window handle, have
`startedWatchingLiveAt` set, and have not yet crossed the first watch-time
reward unit. -/
def protectedWatchChannels (now : ℤ) (isLive : CollectChannel → Bool)
    (collectChannels : List CollectChannel) : List CollectChannel :=
  collectChannels.filter
    (fun c => decide (c ∈ liveChannelsOf isLive collectChannels) &&
      c.windowHandle.isSome && c.startedWatchingLiveAt.isSome &&
      watchStreakProtected now c)

/-- `candidateChannels = [c for c in liveChannels if c not in watchChannels]`
(collect.py line 194). -/
def candidateChannelsRanked (now : ℤ) (isLive : CollectChannel → Bool)
    (collectChannels : List CollectChannel) : List CollectChannel :=
  (liveChannelsOf isLive collectChannels).filter
    (fun c => decide (c ∉ protectedWatchChannels now isLive collectChannels))

/-- The full ranked non-asap watch set (collect.py lines 183-195):
the protected channels plus a slice of the candidates filling the remaining
slots. -/
def selectWatchRankedNotAsap (now : ℤ) (isLive : CollectChannel → Bool)
    (maxConcurrent : ℕ) (collectChannels : List CollectChannel) : List CollectChannel :=
  protectedWatchChannels now isLive collectChannels ++
    pyTakeSlice (candidateChannelsRanked now isLive collectChannels)
      ((maxConcurrent : ℤ) - (protectedWatchChannels now isLive collectChannels).length)

/-- C3: in ranked non-asap mode, every channel that is live this tick, holds a
window handle and has `startedWatchingLiveAt` set stays in the watch set while
`calc_earned_channel_points(watchingSince, 0, 1.0, buffer=1) < 10`; and as
long as the protected channels do not exceed `maxConcurrent`, the remaining
free slots are filled with the first (highest-priority) live channels not
already selected. -/
theorem C3_ranked_protection (now : ℤ) (isLive : CollectChannel → Bool)
    (maxConcurrent : ℕ) (collectChannels : List CollectChannel)
    (c : CollectChannel) (t : ℤ)
    (hc : c ∈ collectChannels) (hlive : isLive c = true)
    (hwin : c.windowHandle.isSome)
    (ht : c.startedWatchingLiveAt = some t)
    (hpts : calc_earned_channel_points (now - t) 0 1 1 < POINTS_FOR_WATCHTIME) :
    c ∈ selectWatchRankedNotAsap now isLive maxConcurrent collectChannels ∧
    ((protectedWatchChannels now isLive collectChannels).length ≤ maxConcurrent →
      selectWatchRankedNotAsap now isLive maxConcurrent collectChannels =
        protectedWatchChannels now isLive collectChannels ++
          (candidateChannelsRanked now isLive collectChannels).take
            (maxConcurrent - (protectedWatchChannels now isLive collectChannels).length)) := by
  constructor
  · have hmemlive : c ∈ liveChannelsOf isLive collectChannels :=
      List.mem_filter.mpr ⟨hc, hlive⟩
    have hprot : c ∈ protectedWatchChannels now isLive collectChannels := by
      refine List.mem_filter.mpr ⟨hc, ?_⟩
      simp [hmemlive, hwin, ht, watchStreakProtected, hpts]
    exact List.mem_append_left _ hprot
  · intro hlen
    unfold selectWatchRankedNotAsap
    congr 1
    unfold pyTakeSlice
    rw [if_pos (by omega)]
    congr 1
    omega

/-- The higher-ranked channel of C3's example scenario, just gone live, not yet
holding a tab. -/
def c3ChannelA : CollectChannel :=
  { channelName := "a"
    negativeLiveCheckCount := 0
    windowHandle := none
    earnedPoints := 0
    pointMultiplier := 0
    startedWatchingLiveAt := none
    claimedBonuses := 0 }

/-- The lower-ranked channel of C3's example scenario: live, holding a tab, and
watched for 4 minutes (`startedWatchingLiveAt = 0`, `now = 240`). -/
def c3ChannelB : CollectChannel :=
  { channelName := "b"
    negativeLiveCheckCount := 0
    windowHandle := some 0
    earnedPoints := 0
    pointMultiplier := 1
    startedWatchingLiveAt := some 0
    claimedBonuses := 0 }

/-- C3 witness: with both channels live, `maxConcurrent = 1`, and B watched for
4 minutes (no reward yet), B stays in the watch set. -/
theorem C3_ranked_protection_witness :
    c3ChannelB ∈ selectWatchRankedNotAsap 240 (fun _ => true) 1 [c3ChannelA, c3ChannelB] ∧
    ((protectedWatchChannels 240 (fun _ => true) [c3ChannelA, c3ChannelB]).length ≤ 1 →
      selectWatchRankedNotAsap 240 (fun _ => true) 1 [c3ChannelA, c3ChannelB] =
        protectedWatchChannels 240 (fun _ => true) [c3ChannelA, c3ChannelB] ++
          (candidateChannelsRanked 240 (fun _ => true) [c3ChannelA, c3ChannelB]).take
            (1 - (protectedWatchChannels 240 (fun _ => true) [c3ChannelA, c3ChannelB]).length)) :=
  C3_ranked_protection 240 (fun _ => true) 1 [c3ChannelA, c3ChannelB] c3ChannelB 0
    (by simp) rfl rfl rfl ((pyInt_intCast_mul_one 0).trans_lt (by decide))

/-! ### Tab/window reconciliation inside the watch loop (collect.py lines 221-269) -/

/-- One browser-surface operation performed by the driver. -/
inductive SurfaceOp where
  | openTab (channelName : String)
  | closeTab (handle : ℕ)
  deriving DecidableEq

/-- `activeChannels = [c for c in collectChannels if c['windowHandle'] is not
None and c['startedWatchingLiveAt'] is not None]` (collect.py lines 223-224). -/
def activeChannelsOf (collectChannels : List CollectChannel) : List CollectChannel :=
  collectChannels.filter (fun c => c.windowHandle.isSome && c.startedWatchingLiveAt.isSome)

/-- The non-`None` window handles held by a list of channels
(`[c['windowHandle'] for c in ...]` restricted to assigned ones). -/
def ownedHandles (collectChannels : List CollectChannel) : List ℕ :=
  collectChannels.filterMap (fun c => c.windowHandle)

/-- `collectChannel['windowHandle'] = newHandles[-1]` (collect.py lines
235-239): after the `window.open` script appends the fresh handle `newH` to
`driver.window_handles`, the channel record — a shared object, located in the
list by value — receives it. -/
def assignHandle (c : CollectChannel) (newH : ℕ)
    (collectChannels : List CollectChannel) : List CollectChannel :=
  collectChannels.map (fun x => if x = c then { x with windowHandle := some newH } else x)

/-- The obsolete handles computed right after opening a tab (collect.py lines
241-248): when more windows exist than active channels, every window that is
neither the just-opened one nor owned by an active channel is marked for
closing. -/
def obsoleteAfterOpen (active : List CollectChannel) (handlesAfterOpen : List ℕ)
    (newH : ℕ) : List ℕ :=
  if handlesAfterOpen.length > active.length then
    handlesAfterOpen.filter (fun h => decide (h ≠ newH) && decide (h ∉ ownedHandles active))
  else []

/-- Closing one obsolete window (collect.py lines 254-267): after
`driver.close()`, the first channel whose stored handle equals the closed one
(`channelWindowHandles.index(obsoleteWindowHandle)`) has its `windowHandle`
unset. -/
def unsetFirstOwner (h : ℕ) : List CollectChannel → List CollectChannel
  | [] => []
  | x :: rest =>
      if x.windowHandle = some h then { x with windowHandle := none } :: rest
      else x :: unsetFirstOwner h rest

/-- The close loop over all obsolete windows (collect.py lines 253-269). -/
def closeObsolete (hs : List ℕ) (collectChannels : List CollectChannel) :
    List CollectChannel :=
  hs.foldl (fun acc h => unsetFirstOwner h acc) collectChannels

/-- Result of the tab-reconciliation part of one watch-loop iteration:
the updated channel records, the browser's remaining window handles, and the
ordered trace of surface operations the driver performed. -/
structure TabStepResult where
  channels : List CollectChannel
  windowHandles : List ℕ
  trace : List SurfaceOp
  deriving DecidableEq

/-- The tab-reconciliation part of one watch-loop iteration for channel `c`
(collect.py lines 221-269).  `newH` is the fresh handle the browser assigns to
the window opened by `window.open` (appended to `driver.window_handles`).
If `c` has no tab, a tab is opened FIRST (lines 233-239) and the obsolete
windows are closed AFTERWARDS (lines 241-269); otherwise, when more than
`maxConcurrent` channels are active, the lowest-ranked active channel's tab is
closed (lines 249-251). -/
def tabReconcileStep (maxConcurrent : ℕ) (collectChannels : List CollectChannel)
    (windowHandles : List ℕ) (c : CollectChannel) (newH : ℕ) : TabStepResult :=
  let active := activeChannelsOf collectChannels
  if c.windowHandle = none then
    let handlesAfterOpen := windowHandles ++ [newH]
    let afterAssign := assignHandle c newH collectChannels
    let obsolete := obsoleteAfterOpen active handlesAfterOpen newH
    { channels := closeObsolete obsolete afterAssign
      windowHandles := obsolete.foldl (fun acc h => acc.erase h) handlesAfterOpen
      trace := SurfaceOp.openTab c.channelName :: obsolete.map SurfaceOp.closeTab }
  else
    let obsolete := if active.length > maxConcurrent then
        (active.getLast?.bind (fun a => a.windowHandle)).toList
      else []
    { channels := closeObsolete obsolete collectChannels
      windowHandles := obsolete.foldl (fun acc h => acc.erase h) windowHandles
      trace := obsolete.map SurfaceOp.closeTab }

/-- The number of channels currently holding a window handle. -/
def holderCount (collectChannels : List CollectChannel) : ℕ :=
  (collectChannels.filter (fun c => c.windowHandle.isSome)).length

/-- The incoming channel of the displacement scenario used for C4 and C5:
selected for watching, no tab yet. -/
def c4ChannelA : CollectChannel :=
  { channelName := "a"
    negativeLiveCheckCount := 0
    windowHandle := none
    earnedPoints := 0
    pointMultiplier := 0
    startedWatchingLiveAt := none
    claimedBonuses := 0 }

/-- The displaced channel of the scenario: still holds window 0, but its
`startedWatchingLiveAt` was already cleared by the idle phase, so it is no
longer active. -/
def c4ChannelB : CollectChannel :=
  { channelName := "b"
    negativeLiveCheckCount := 0
    windowHandle := some 0
    earnedPoints := 20
    pointMultiplier := 1
    startedWatchingLiveAt := none
    claimedBonuses := 0 }

/-- C4 counterexample: with `maxConcurrent = 1`, channel "a" taking over from
displaced channel "b" (which still holds window 0), the iteration's surface
trace is `[open "a", close 0]` — the open happens BEFORE the close of the
displaced channel's surface, refuting the claimed release-before-acquire
ordering. -/
theorem C4_acquire_first_counterexample :
    (tabReconcileStep 1 [c4ChannelA, c4ChannelB] [0] c4ChannelA 1).trace =
      [SurfaceOp.openTab "a", SurfaceOp.closeTab 0] := by decide

/-- C4 (amended): within a tick, for a selected channel without a tab, the
surface-open is the FIRST operation of the iteration's trace and every other
operation of that trace is a close of an obsolete surface — the scheduler
acquires before it releases. -/
theorem C4_open_then_close (maxConcurrent : ℕ) (collectChannels : List CollectChannel)
    (windowHandles : List ℕ) (c : CollectChannel) (newH : ℕ)
    (hnone : c.windowHandle = none) :
    (tabReconcileStep maxConcurrent collectChannels windowHandles c newH).trace.head? =
      some (SurfaceOp.openTab c.channelName) ∧
    ∀ op ∈ (tabReconcileStep maxConcurrent collectChannels windowHandles c newH).trace.tail,
      ∃ h, op = SurfaceOp.closeTab h := by
  constructor
  · simp [tabReconcileStep, hnone]
  · intro op hop
    simp [tabReconcileStep, hnone] at hop
    obtain ⟨h, _, rfl⟩ := hop
    exact ⟨h, rfl⟩

/-- C4 witness: the amended ordering at the concrete displacement scenario. -/
theorem C4_open_then_close_witness :
    (tabReconcileStep 1 [c4ChannelA, c4ChannelB] [0] c4ChannelA 1).trace.head? =
      some (SurfaceOp.openTab c4ChannelA.channelName) ∧
    ∀ op ∈ (tabReconcileStep 1 [c4ChannelA, c4ChannelB] [0] c4ChannelA 1).trace.tail,
      ∃ h, op = SurfaceOp.closeTab h :=
  C4_open_then_close 1 [c4ChannelA, c4ChannelB] [0] c4ChannelA 1 rfl

/-! ### Holder-count lemmas for C5 -/

theorem assignHandle_cons (c : CollectChannel) (newH : ℕ) (x : CollectChannel)
    (rest : List CollectChannel) :
    assignHandle c newH (x :: rest) =
      (if x = c then { x with windowHandle := some newH } else x) ::
        assignHandle c newH rest := rfl

theorem assignHandle_of_not_mem (c : CollectChannel) (newH : ℕ)
    (cs : List CollectChannel) (h : c ∉ cs) : assignHandle c newH cs = cs := by
  induction cs with
  | nil => rfl
  | cons x rest ih =>
      have hne : c ≠ x := fun he => h (he ▸ List.mem_cons_self x rest)
      have hrest : c ∉ rest := fun hm => h (List.mem_cons_of_mem x hm)
      rw [assignHandle_cons, if_neg (fun hx => hne hx.symm), ih hrest]

theorem holderCount_cons (x : CollectChannel) (rest : List CollectChannel) :
    holderCount (x :: rest) =
      (if x.windowHandle.isSome then 1 else 0) + holderCount rest := by
  by_cases h : x.windowHandle.isSome <;>
    simp [holderCount, List.filter_cons, h, Nat.add_comm]

theorem holderCount_assignHandle (c : CollectChannel) (newH : ℕ)
    (cs : List CollectChannel) (hc : c ∈ cs) (hnone : c.windowHandle = none)
    (hcount : cs.count c = 1) :
    holderCount (assignHandle c newH cs) = holderCount cs + 1 := by
  induction cs with
  | nil => simp at hc
  | cons x rest ih =>
      by_cases hx : x = c
      · subst hx
        have hxrest : x ∉ rest := by
          rw [List.count_cons_self] at hcount
          exact List.count_eq_zero.mp (by omega)
        rw [assignHandle_cons, if_pos rfl, assignHandle_of_not_mem _ _ _ hxrest,
          holderCount_cons, holderCount_cons]
        simp [hnone, Nat.add_comm]
      · have hcrest : c ∈ rest := (List.mem_cons.mp hc).resolve_left
          (fun hcx => hx hcx.symm)
        have hcountrest : rest.count c = 1 := by
          rw [List.count_cons_of_ne (fun hcx => hx hcx.symm)] at hcount
          exact hcount
        rw [assignHandle_cons, if_neg hx, holderCount_cons, holderCount_cons,
          ih hcrest hcountrest]
        omega

theorem holderCount_unsetFirstOwner (h : ℕ) (cs : List CollectChannel) :
    holderCount (unsetFirstOwner h cs) ≤ holderCount cs := by
  induction cs with
  | nil => simp [unsetFirstOwner]
  | cons x rest ih =>
      by_cases hx : x.windowHandle = some h
      · rw [unsetFirstOwner, if_pos hx, holderCount_cons, holderCount_cons]
        simp
      · rw [unsetFirstOwner, if_neg hx, holderCount_cons, holderCount_cons]
        omega

theorem closeObsolete_cons (h : ℕ) (rest : List ℕ) (cs : List CollectChannel) :
    closeObsolete (h :: rest) cs = closeObsolete rest (unsetFirstOwner h cs) := rfl

theorem holderCount_closeObsolete (hs : List ℕ) (cs : List CollectChannel) :
    holderCount (closeObsolete hs cs) ≤ holderCount cs := by
  induction hs generalizing cs with
  | nil => exact le_refl _
  | cons h rest ih =>
      rw [closeObsolete_cons]
      exact (ih _).trans (holderCount_unsetFirstOwner h cs)

/-- C5 counterexample: in the displacement scenario with `maxConcurrent = 1`
(channel "a" opening its tab while displaced channel "b" still holds window 0),
the number of channels holding a window handle is 2 right after the handle
assignment of the open step — between the reconciliation sub-steps of the tick
the claimed bound `maxConcurrent` is exceeded.  The bound only returns to 1
once the obsolete-close sub-step has run. -/
theorem C5_transient_over_limit :
    holderCount [c4ChannelA, c4ChannelB] = 1 ∧
    holderCount (assignHandle c4ChannelA 1 [c4ChannelA, c4ChannelB]) = 2 ∧
    holderCount (tabReconcileStep 1 [c4ChannelA, c4ChannelB] [0] c4ChannelA 1).channels = 1 := by
  decide

/-- C5 (amended): the holder count is NOT bounded by `maxConcurrent` between
the sub-steps of an iteration: the tab-open step raises it by exactly one
(hence to `maxConcurrent + 1` when all slots were taken), and the subsequent
obsolete-close loop never raises it further. -/
theorem C5_holder_bound (collectChannels : List CollectChannel) (c : CollectChannel)
    (newH : ℕ) (obsolete : List ℕ)
    (hc : c ∈ collectChannels) (hnone : c.windowHandle = none)
    (hcount : collectChannels.count c = 1) :
    holderCount (assignHandle c newH collectChannels) = holderCount collectChannels + 1 ∧
    holderCount (closeObsolete obsolete (assignHandle c newH collectChannels)) ≤
      holderCount collectChannels + 1 := by
  have h1 := holderCount_assignHandle c newH collectChannels hc hnone hcount
  exact ⟨h1, (holderCount_closeObsolete obsolete _).trans (le_of_eq h1)⟩

/-- C5 witness: the amended bound at the concrete displacement scenario. -/
theorem C5_holder_bound_witness :
    holderCount (assignHandle c4ChannelA 1 [c4ChannelA, c4ChannelB]) =
      holderCount [c4ChannelA, c4ChannelB] + 1 ∧
    holderCount (closeObsolete [0] (assignHandle c4ChannelA 1 [c4ChannelA, c4ChannelB])) ≤
      holderCount [c4ChannelA, c4ChannelB] + 1 :=
  C5_holder_bound [c4ChannelA, c4ChannelB] c4ChannelA 1 [0]
    (by decide) (by decide) (by decide)

/-! ### The not-live branch and the forced-reload counter (collect.py lines 414-440) -/

theorem idleUpdate_negativeLiveCheckCount (now : ℤ) (c : CollectChannel) :
    (idleUpdate now c).negativeLiveCheckCount = c.negativeLiveCheckCount := by
  cases hs : c.startedWatchingLiveAt <;> simp [idleUpdate, hs]

/-- One not-live observation for a channel (collect.py lines 414-440),
returning the updated record and whether a hard page reload (`driver.get`)
was triggered.  The counter bookkeeping only runs in single-channel mode
(`len(collectChannels) == 1`); the below-threshold branch also performs the
same earned-points/timestamp sync as the idle loop (lines 420-426).  A
triggered reload is assumed to succeed. -/
def notLiveStep (numChannels : ℕ) (now : ℤ) (c : CollectChannel) :
    CollectChannel × Bool :=
  if numChannels = 1 ∧ c.negativeLiveCheckCount < 10 then
    let c1 := idleUpdate now c
    ({ c1 with negativeLiveCheckCount := c1.negativeLiveCheckCount + 1 }, false)
  else if numChannels = 1 then
    ({ c with negativeLiveCheckCount := 0 }, true)
  else (c, false)

/-- `n` consecutive not-live observations of the same channel, counting the
reloads that were triggered. -/
def notLiveRun (numChannels : ℕ) (now : ℤ) (c : CollectChannel) :
    ℕ → CollectChannel × ℕ
  | 0 => (c, 0)
  | n + 1 =>
      let p := notLiveRun numChannels now c n
      let q := notLiveStep numChannels now p.1
      (q.1, p.2 + if q.2 then 1 else 0)

theorem notLiveRun_succ (numChannels : ℕ) (now : ℤ) (c : CollectChannel) (n : ℕ) :
    notLiveRun numChannels now c (n + 1) =
      ((notLiveStep numChannels now (notLiveRun numChannels now c n).1).1,
        (notLiveRun numChannels now c n).2 +
          if (notLiveStep numChannels now (notLiveRun numChannels now c n).1).2
            then 1 else 0) := rfl

theorem notLiveStep_below (now : ℤ) (c : CollectChannel)
    (h : c.negativeLiveCheckCount < 10) :
    notLiveStep 1 now c =
      ({ idleUpdate now c with
          negativeLiveCheckCount := c.negativeLiveCheckCount + 1 }, false) := by
  unfold notLiveStep
  rw [if_pos ⟨rfl, h⟩]
  simp [idleUpdate_negativeLiveCheckCount]

theorem notLiveStep_at_threshold (now : ℤ) (c : CollectChannel)
    (h : ¬ c.negativeLiveCheckCount < 10) :
    notLiveStep 1 now c = ({ c with negativeLiveCheckCount := 0 }, true) := by
  unfold notLiveStep
  rw [if_neg (fun hh => h hh.2), if_pos rfl]

/-- C6 counterexample: with 2 channels configured, 11 consecutive not-live
observations trigger NO reload (the claim demands exactly one, on the 11th),
and the very first observation leaves the counter at 0 (the claim demands an
increment): the counter/reload logic is guarded by `len(collectChannels) == 1`. -/
theorem C6_multichannel_counterexample :
    (notLiveRun 2 0 (initChannel "a") 11).2 = 0 ∧
    (notLiveRun 2 0 (initChannel "a") 1).1.negativeLiveCheckCount = 0 := by
  decide

/-- C6 (amended): in single-channel mode, starting from
`negativeLiveCheckCount = 0`, each of the first 10 not-live observations
increments the counter and triggers no reload, and the 11th observation
triggers exactly one hard reload and resets the counter to 0. -/
theorem C6_single_channel_reload (now : ℤ) (c : CollectChannel)
    (h0 : c.negativeLiveCheckCount = 0) :
    (∀ k, k ≤ 10 → (notLiveRun 1 now c k).1.negativeLiveCheckCount = k ∧
      (notLiveRun 1 now c k).2 = 0) ∧
    (notLiveRun 1 now c 11).2 = 1 ∧
    (notLiveRun 1 now c 11).1.negativeLiveCheckCount = 0 := by
  have hmain : ∀ k, k ≤ 10 → (notLiveRun 1 now c k).1.negativeLiveCheckCount = k ∧
      (notLiveRun 1 now c k).2 = 0 := by
    intro k
    induction k with
    | zero => exact fun _ => ⟨h0, rfl⟩
    | succ n ih =>
        intro hn
        obtain ⟨hcnt, hrel⟩ := ih (by omega)
        have hlt : (notLiveRun 1 now c n).1.negativeLiveCheckCount < 10 := by omega
        rw [notLiveRun_succ, notLiveStep_below now _ hlt]
        constructor
        · simp [hcnt]
        · simp [hrel]
  obtain ⟨hcnt10, hrel10⟩ := hmain 10 (le_refl _)
  have h11 : (11 : ℕ) = 10 + 1 := rfl
  refine ⟨hmain, ?_, ?_⟩
  · rw [h11, notLiveRun_succ, notLiveStep_at_threshold now _ (by omega)]
    simp [hrel10]
  · rw [h11, notLiveRun_succ, notLiveStep_at_threshold now _ (by omega)]

/-- C6 witness: the amended behaviour at a concrete fresh channel. -/
theorem C6_single_channel_reload_witness :
    (notLiveRun 1 0 (initChannel "a") 10).1.negativeLiveCheckCount = 10 ∧
    (notLiveRun 1 0 (initChannel "a") 10).2 = 0 ∧
    (notLiveRun 1 0 (initChannel "a") 11).2 = 1 ∧
    (notLiveRun 1 0 (initChannel "a") 11).1.negativeLiveCheckCount = 0 := by
  obtain ⟨hmain, h1, h2⟩ := C6_single_channel_reload 0 (initChannel "a") rfl
  obtain ⟨h3, h4⟩ := hmain 10 (le_refl _)
  exact ⟨h3, h4, h1, h2⟩

/-! ### Point-multiplier discovery (collect.py lines 369-399) -/

/-- Outcome of one multiplier-discovery attempt's interaction with the
reward-center dialog, as distinguished by the except/else logic of collect.py
lines 371-399. -/
inductive MultiplierOutcome where
  /-- A `NoSuchElementException` or `ElementNotInteractableException` was
  raised while driving the dialog. -/
  | uiFailure
  /-- The dialog opened but no multiplier heading was present. -/
  | headingAbsent
  /-- A multiplier heading was present; `v` is the value of
  `float(str(heading.text).lower().split('x')[0])` when that parse succeeds,
  and `none` when it raises `ValueError`. -/
  | headingParsed (v : Option ℚ)
  deriving DecidableEq

/-- One watch-loop pass over the multiplier-discovery block (collect.py lines
370-399): attempted only while `pointMultiplier` is the 0.0 sentinel; every
failure path substitutes the default 1.0, a successful parse stores the parsed
value. -/
def discoverPointMultiplier (c : CollectChannel) (o : MultiplierOutcome) :
    CollectChannel :=
  if c.pointMultiplier = 0 then
    match o with
    | .uiFailure => { c with pointMultiplier := 1 }
    | .headingAbsent => { c with pointMultiplier := 1 }
    | .headingParsed (some v) => { c with pointMultiplier := v }
    | .headingParsed none => { c with pointMultiplier := 1 }
  else c

/-- C9 counterexample: a heading whose text parses to the float 0.0 (e.g.
`"0x"`) is stored verbatim, so the attempt leaves the 0.0 sentinel in place —
refuting "discovery never leaves the sentinel in place after an attempt". -/
theorem C9_zero_parse_counterexample :
    (discoverPointMultiplier (initChannel "a")
      (MultiplierOutcome.headingParsed (some 0))).pointMultiplier = 0 := by
  decide

/-- C9 (amended): whenever discovery is attempted (the sentinel is present), a
failed attempt — missing or non-interactable UI elements, absent multiplier
heading, or unparsable heading text — sets `pointMultiplier` to the default
1.0 and processing continues; a successful parse stores the parsed value, so
the sentinel survives an attempt only when the page itself reports a
multiplier that parses to 0. -/
theorem C9_multiplier_discovery (c : CollectChannel) (o : MultiplierOutcome)
    (hsent : c.pointMultiplier = 0) :
    ((o = MultiplierOutcome.uiFailure ∨ o = MultiplierOutcome.headingAbsent ∨
        o = MultiplierOutcome.headingParsed none) →
      (discoverPointMultiplier c o).pointMultiplier = 1) ∧
    (∀ v, o = MultiplierOutcome.headingParsed (some v) →
      (discoverPointMultiplier c o).pointMultiplier = v) ∧
    (∀ v, o = MultiplierOutcome.headingParsed (some v) → v ≠ 0 →
      (discoverPointMultiplier c o).pointMultiplier ≠ 0) := by
  unfold discoverPointMultiplier
  rw [if_pos hsent]
  refine ⟨?_, ?_, ?_⟩
  · rintro (rfl | rfl | rfl) <;> rfl
  · rintro v rfl
    rfl
  · rintro v rfl hv
    simpa using hv

/-- C9 witness: a UI failure during the attempt on a fresh (sentinel) channel
yields the default multiplier 1.0. -/
theorem C9_multiplier_discovery_witness :
    (discoverPointMultiplier (initChannel "a")
      MultiplierOutcome.uiFailure).pointMultiplier = 1 :=
  (C9_multiplier_discovery (initChannel "a") MultiplierOutcome.uiFailure rfl).1
    (Or.inl rfl)
